import Mathlib

/-!
Verification development for the lakehouse-monitor orchestration notebook
(`01-Timeseries-monitor.py`).  The notebook creates a table monitor through a
service client, polls its status until it leaves PENDING, polls the first
refresh run until it leaves PENDING/RUNNING, updates the monitor with a batch
of custom metric definitions, triggers a refresh and polls it again.

The polling loops, the try/except cells around create/update, the assertion
statements and the custom-metric batch are embedded below as executable Lean
functions over explicit status traces (a function `Nat → Status` giving the
result of the k-th service fetch).  Loops are run with explicit fuel: a result
of `none` means the loop is still polling after consuming all the fuel, i.e.
the loop has not terminated within that many iterations.
-/

namespace LakehouseMonitor

/-- Status enum of the monitor resource, as imported by the notebook from
`databricks.sdk.service.catalog.MonitorInfoStatus`. -/
inductive MonitorInfoStatus where
  | MONITOR_STATUS_PENDING
  | MONITOR_STATUS_ACTIVE
  | MONITOR_STATUS_FAILED
  | MONITOR_STATUS_ERROR
  | MONITOR_STATUS_DELETE_PENDING
  deriving DecidableEq, Repr

/-- State enum of a refresh run, as imported by the notebook from
`databricks.sdk.service.catalog.MonitorRefreshInfoState`. -/
inductive MonitorRefreshInfoState where
  | PENDING
  | RUNNING
  | SUCCESS
  | FAILED
  | CANCELED
  | UNKNOWN
  deriving DecidableEq, Repr

/-- Source line 132: `time.sleep(10)` in the monitor-creation poll loop. -/
def monitorSleepSeconds : Nat := 10

/-- Source lines 142 and 413: `time.sleep(30)` in both refresh poll loops. -/
def refreshSleepSeconds : Nat := 30

/-- Observable events of the monitor-creation poll loop: a call to
`w.quality_monitors.get(table_name=...)` (carrying its 0-based index) or a
`time.sleep` of the given number of seconds. -/
inductive MonitorEvent where
  | fetchStatus (idx : Nat)
  | sleepSec (secs : Nat)
  deriving DecidableEq, Repr

/-- Source lines 130-132, the `while` loop:
`while info.status == MonitorInfoStatus.MONITOR_STATUS_PENDING:
   info = w.quality_monitors.get(table_name=...); time.sleep(10)`.
`statuses k` is the status returned by the k-th fetch (0-based); `cur` is the
status held in `info` when the loop condition is checked, `i` the index of the
next fetch.  Returns the list of events the loop performs together with
`some finalStatus` when the loop exits, or `none` when the fuel is exhausted
while `info.status` is still PENDING. -/
def monitorPollGo (statuses : Nat → MonitorInfoStatus) (cur : MonitorInfoStatus)
    (i : Nat) : Nat → List MonitorEvent × Option MonitorInfoStatus
  | 0 =>
    if cur = MonitorInfoStatus.MONITOR_STATUS_PENDING then ([], none) else ([], some cur)
  | fuel + 1 =>
    if cur = MonitorInfoStatus.MONITOR_STATUS_PENDING then
      let next := statuses i
      let rest := monitorPollGo statuses next (i + 1) fuel
      (MonitorEvent.fetchStatus i :: MonitorEvent.sleepSec monitorSleepSeconds :: rest.1,
        rest.2)
    else ([], some cur)

/-- Source lines 129-132: the initial fetch
`info = w.quality_monitors.get(table_name=...)` followed by the `while` loop
of `monitorPollGo`.  The notebook never passes a timeout: fuel is only the
observation bound of this embedding, not a parameter of the code. -/
def monitorPollLoop (statuses : Nat → MonitorInfoStatus) (fuel : Nat) :
    List MonitorEvent × Option MonitorInfoStatus :=
  let rest := monitorPollGo statuses (statuses 0) 1 fuel
  (MonitorEvent.fetchStatus 0 :: rest.1, rest.2)

/-- Source line 134:
`assert info.status == MonitorInfoStatus.MONITOR_STATUS_ACTIVE, "Error creating monitor"`. -/
def assertMonitorActive (s : MonitorInfoStatus) : Except String MonitorInfoStatus :=
  if s = MonitorInfoStatus.MONITOR_STATUS_ACTIVE then Except.ok s
  else Except.error "Error creating monitor"

/-- Whether a monitor-loop event is a status fetch. -/
def isFetch : MonitorEvent → Bool
  | MonitorEvent.fetchStatus _ => true
  | MonitorEvent.sleepSec _ => false

/-- Whether a monitor-loop event is a sleep. -/
def isSleepM : MonitorEvent → Bool
  | MonitorEvent.fetchStatus _ => false
  | MonitorEvent.sleepSec _ => true

/-- Number of status fetches in a monitor-loop trace. -/
def fetchCount (tr : List MonitorEvent) : Nat := tr.countP isFetch

/-- Number of sleeps in a monitor-loop trace. -/
def sleepCount (tr : List MonitorEvent) : Nat := tr.countP isSleepM

/-- The sleep durations (in seconds) occurring in a monitor-loop trace. -/
def sleepSecsM (tr : List MonitorEvent) : List Nat :=
  tr.filterMap fun e =>
    match e with
    | MonitorEvent.sleepSec n => some n
    | MonitorEvent.fetchStatus _ => none

/-- Source line 140: membership test
`run_info.state in (MonitorRefreshInfoState.PENDING, MonitorRefreshInfoState.RUNNING)`. -/
def refreshStatePending : MonitorRefreshInfoState → Bool
  | MonitorRefreshInfoState.PENDING => true
  | MonitorRefreshInfoState.RUNNING => true
  | _ => false

/-- Observable events of the refresh sections: a
`w.quality_monitors.get_refresh(table_name=..., refresh_id=...)` call (carrying
the id of the client handle it goes through, the refresh id it asks for and its
0-based index), a `time.sleep`, the `w.quality_monitors.run_refresh` call of
line 407, and the construction of a new `WorkspaceClient()` handle. -/
inductive RefreshEvent where
  | getRefresh (handle : Nat) (refreshId : Nat) (idx : Nat)
  | sleepSec (secs : Nat)
  | runRefreshCall (handle : Nat)
  | newClient (handle : Nat)
  deriving DecidableEq, Repr

/-- Source lines 140-142 and 411-413, the `while` loop:
`while run_info.state in (PENDING, RUNNING):
   run_info = w.quality_monitors.get_refresh(table_name=..., refresh_id=run_info.refresh_id)
   time.sleep(30)`.
`states k` is the state returned by the k-th `get_refresh` call; every
`get_refresh` goes through client handle `handle` and asks for `refreshId`. -/
def refreshPollGo (handle refreshId : Nat) (states : Nat → MonitorRefreshInfoState)
    (cur : MonitorRefreshInfoState) (i : Nat) :
    Nat → List RefreshEvent × Option MonitorRefreshInfoState
  | 0 => if refreshStatePending cur then ([], none) else ([], some cur)
  | fuel + 1 =>
    if refreshStatePending cur then
      let next := states i
      let rest := refreshPollGo handle refreshId states next (i + 1) fuel
      (RefreshEvent.getRefresh handle refreshId i ::
        RefreshEvent.sleepSec refreshSleepSeconds :: rest.1, rest.2)
    else ([], some cur)

/-- Source lines 144 and 415:
`assert run_info.state == MonitorRefreshInfoState.SUCCESS, "Monitor refresh failed"`. -/
def assertRefreshSuccess (s : MonitorRefreshInfoState) : Except String MonitorRefreshInfoState :=
  if s = MonitorRefreshInfoState.SUCCESS then Except.ok s
  else Except.error "Monitor refresh failed"

/-- The client handles used by the `get_refresh` calls of a refresh trace. -/
def getRefreshHandles (tr : List RefreshEvent) : List Nat :=
  tr.filterMap fun e =>
    match e with
    | RefreshEvent.getRefresh h _ _ => some h
    | _ => none

/-- The refresh ids asked for by the `get_refresh` calls of a refresh trace. -/
def getRefreshIds (tr : List RefreshEvent) : List Nat :=
  tr.filterMap fun e =>
    match e with
    | RefreshEvent.getRefresh _ r _ => some r
    | _ => none

/-- Number of `get_refresh` calls in a refresh trace. -/
def getRefreshCount (tr : List RefreshEvent) : Nat :=
  (getRefreshIds tr).length

/-- The sleep durations (in seconds) occurring in a refresh trace. -/
def sleepSecsR (tr : List RefreshEvent) : List Nat :=
  tr.filterMap fun e =>
    match e with
    | RefreshEvent.sleepSec n => some n
    | _ => none

/-- One element of `w.quality_monitors.list_refreshes(...).refreshes`:
a refresh id and a current state (source lines 136-139). -/
structure MonitorRefreshInfo where
  refreshId : Nat
  state : MonitorRefreshInfoState
  deriving DecidableEq, Repr

/-- Source lines 136-142:
`refreshes = w.quality_monitors.list_refreshes(table_name=...).refreshes;
 assert(len(refreshes) > 0); run_info = refreshes[0]` followed by the poll
loop on `run_info`.  An empty list fails the assertion before any
`get_refresh` call; otherwise only `refreshes[0]` is polled, through the same
client handle (handle 0 here) that listed the refreshes. -/
def awaitFirstRefresh (refreshes : List MonitorRefreshInfo)
    (states : Nat → MonitorRefreshInfoState) (fuel : Nat) :
    List RefreshEvent × Except String (Option MonitorRefreshInfoState) :=
  match refreshes with
  | [] => ([], Except.error "assert len(refreshes) > 0 failed")
  | r0 :: _ =>
    let rest := refreshPollGo 0 r0.refreshId states r0.state 0 fuel
    (rest.1, Except.ok rest.2)

/-- Source lines 406-413:
`run_info = w.quality_monitors.run_refresh(table_name=TABLE_NAME)` through the
existing client handle (handle 0), then `w = WorkspaceClient()` constructing a
fresh handle (handle 1), then the poll loop, whose `get_refresh` calls all go
through the rebound `w`, i.e. handle 1.  `init` is the state of the run
returned by `run_refresh`, `rid` its refresh id. -/
def runRefreshSection (init : MonitorRefreshInfoState) (rid : Nat)
    (states : Nat → MonitorRefreshInfoState) (fuel : Nat) :
    List RefreshEvent × Option MonitorRefreshInfoState :=
  let rest := refreshPollGo 1 rid states init 0 fuel
  (RefreshEvent.runRefreshCall 0 :: RefreshEvent.newClient 1 :: rest.1, rest.2)

/-- The monitor value returned by `w.quality_monitors.create` / `update`;
only the fields the claims touch are kept. -/
structure MonitorInfo where
  status : MonitorInfoStatus
  deriving DecidableEq, Repr

/-- A call made by one of the try/except cells. -/
inductive ServiceCall where
  | createCall
  | updateCall
  deriving DecidableEq, Repr

/-- Outcome of running one notebook cell: the cell completed normally with a
value, the cell caught an exception and printed it (execution continues with
the next cell), or the cell raised (execution stops). -/
inductive CellOutcome (α : Type) where
  | ok (value : α)
  | printedError (msg : String)
  | raised (msg : String)
  deriving DecidableEq, Repr

/-- Whether notebook execution continues past a cell with this outcome. -/
def continuesExecution {α : Type} : CellOutcome α → Bool
  | CellOutcome.raised _ => false
  | _ => true

/-- Source lines 100-112, the create cell:
`try: lhm_monitor = w.quality_monitors.create(...)
 except Exception as lhm_exception: print(lhm_exception)`.
`result` is what the single `create` call returns (`Except.error` for a raised
exception such as a privilege or schema `ConfigurationError`).  The trace
records the service calls the cell makes: exactly one, never retried. -/
def createMonitorCell (result : Except String MonitorInfo) :
    List ServiceCall × CellOutcome MonitorInfo :=
  ([ServiceCall.createCall],
    match result with
    | Except.ok m => CellOutcome.ok m
    | Except.error e => CellOutcome.printedError e)

/-- Source lines 379-397, the update cell: same try/except shape around the
single `w.quality_monitors.update(...)` call. -/
def updateMonitorCell (result : Except String MonitorInfo) :
    List ServiceCall × CellOutcome MonitorInfo :=
  ([ServiceCall.updateCall],
    match result with
    | Except.ok m => CellOutcome.ok m
    | Except.error e => CellOutcome.printedError e)

/-- The claimed behaviour of the create cell on a ConfigurationError `msg`:
execution does not continue past the failed call.  True would mean the error
halts the notebook; the code prints it and continues. -/
def haltsOnConfigError (msg : String) : Bool :=
  !(continuesExecution (createMonitorCell (Except.error msg)).2)

/-- Metric kind enum, as imported by the notebook from
`databricks.sdk.service.catalog.MonitorMetricType`. -/
inductive MonitorMetricType where
  | CUSTOM_METRIC_TYPE_AGGREGATE
  | CUSTOM_METRIC_TYPE_DERIVED
  | CUSTOM_METRIC_TYPE_DRIFT
  deriving DecidableEq, Repr

/-- The value of `T.StructField(name, T.DoubleType()).json()`: field name and
Spark type of the metric output column. -/
structure StructFieldJson where
  fieldName : String
  fieldType : String
  deriving DecidableEq, Repr

/-- Reference structure of a metric `definition` expression string: which
custom-metric names it mentions, which raw table columns it mentions
directly, and whether it uses the `input_column` template (which expands to a
raw column of the primary table) or the `current_df` / `base_df` window
templates. -/
structure MetricExpr where
  metricRefs : List String
  columnRefs : List String
  usesInputColumnTemplate : Bool
  usesWindowTemplates : Bool
  deriving DecidableEq, Repr

/-- One `MonitorMetric(...)` value; `definitionRefs` is the reference
structure of the `definition` string quoted in each metric's doc comment. -/
structure MonitorMetric where
  type : MonitorMetricType
  name : String
  input_columns : List String
  definitionRefs : MetricExpr
  output_data_type : StructFieldJson
  deriving DecidableEq, Repr

/-- Source lines 275-281: AGGREGATE metric `avg_price_after_discount` with
definition `avg(Price*(1-Discount))`, referencing the raw columns `Price` and
`Discount` and no custom metric. -/
def avg_price_after_discount_agg : MonitorMetric :=
  { type := MonitorMetricType.CUSTOM_METRIC_TYPE_AGGREGATE
    name := "avg_price_after_discount"
    input_columns := [":table"]
    definitionRefs :=
      { metricRefs := []
        columnRefs := ["Price", "Discount"]
        usesInputColumnTemplate := false
        usesWindowTemplates := false }
    output_data_type := { fieldName := "avg_price_after_discount", fieldType := "double" } }

/-- Source lines 294-300: DERIVED metric `log_price_after_discount` with
definition `log(avg_price_after_discount)`, referencing only the earlier
aggregate metric, no raw column and no template. -/
def log_price_after_discount_derived : MonitorMetric :=
  { type := MonitorMetricType.CUSTOM_METRIC_TYPE_DERIVED
    name := "log_price_after_discount"
    input_columns := [":table"]
    definitionRefs :=
      { metricRefs := ["avg_price_after_discount"]
        columnRefs := []
        usesInputColumnTemplate := false
        usesWindowTemplates := false }
    output_data_type := { fieldName := "log_price_after_discount", fieldType := "double" } }

/-- Source lines 310-316: AGGREGATE metric `variance` with definition
`var_samp` of the `input_column` template, computed per input column over the
raw columns `TotalPurchaseAmount` and `Discount`. -/
def variance_metric_agg : MonitorMetric :=
  { type := MonitorMetricType.CUSTOM_METRIC_TYPE_AGGREGATE
    name := "variance"
    input_columns := ["TotalPurchaseAmount", "Discount"]
    definitionRefs :=
      { metricRefs := []
        columnRefs := []
        usesInputColumnTemplate := true
        usesWindowTemplates := false }
    output_data_type := { fieldName := "variance", fieldType := "double" } }

/-- Source lines 327-333: DERIVED metric `std` with definition
`sqrt(variance)`, referencing only the earlier aggregate metric `variance`,
no raw column and no template. -/
def std_metric_derived : MonitorMetric :=
  { type := MonitorMetricType.CUSTOM_METRIC_TYPE_DERIVED
    name := "std"
    input_columns := ["TotalPurchaseAmount", "Discount"]
    definitionRefs :=
      { metricRefs := ["variance"]
        columnRefs := []
        usesInputColumnTemplate := false
        usesWindowTemplates := false }
    output_data_type := { fieldName := "std", fieldType := "double" } }

/-- Source lines 347-353: DRIFT metric `std_delta_pct` whose definition
compares `std` between the `current_df` and `base_df` windows; it references
only the earlier derived metric `std`. -/
def std_delta_pct_drift : MonitorMetric :=
  { type := MonitorMetricType.CUSTOM_METRIC_TYPE_DRIFT
    name := "std_delta_pct"
    input_columns := ["TotalPurchaseAmount", "Discount"]
    definitionRefs :=
      { metricRefs := ["std"]
        columnRefs := []
        usesInputColumnTemplate := false
        usesWindowTemplates := true }
    output_data_type := { fieldName := "std_pct_delta", fieldType := "double" } }

/-- Source lines 363-369: DRIFT metric `log_price_after_discount_ratio` whose
definition divides `log_price_after_discount` of the `current_df` window by
that of the `base_df` window; it references only the earlier derived metric. -/
def log_price_after_discount_delta_drift : MonitorMetric :=
  { type := MonitorMetricType.CUSTOM_METRIC_TYPE_DRIFT
    name := "log_price_after_discount_ratio"
    input_columns := [":table"]
    definitionRefs :=
      { metricRefs := ["log_price_after_discount"]
        columnRefs := []
        usesInputColumnTemplate := false
        usesWindowTemplates := true }
    output_data_type := { fieldName := "log_price_after_discount_delta", fieldType := "double" } }

/-- Source lines 385-392: the `custom_metrics` batch passed to
`w.quality_monitors.update`, in source order. -/
def custom_metrics : List MonitorMetric :=
  [avg_price_after_discount_agg,
   log_price_after_discount_derived,
   log_price_after_discount_delta_drift,
   variance_metric_agg,
   std_metric_derived,
   std_delta_pct_drift]

/-- Layering invariant of a metric batch, checked with the list of names of
AGGREGATE and DERIVED metrics defined strictly earlier: every DERIVED or
DRIFT definition references only such earlier names, references no raw table
column and uses no `input_column` template (so only AGGREGATE definitions
touch raw columns directly). -/
def derivedDriftLayered : List String → List MonitorMetric → Bool
  | _, [] => true
  | earlier, m :: rest =>
    let ok : Bool :=
      match m.type with
      | MonitorMetricType.CUSTOM_METRIC_TYPE_AGGREGATE => true
      | _ =>
        m.definitionRefs.metricRefs.all (fun r => earlier.contains r) &&
          m.definitionRefs.columnRefs.isEmpty &&
          !m.definitionRefs.usesInputColumnTemplate
    let more :=
      match m.type with
      | MonitorMetricType.CUSTOM_METRIC_TYPE_DRIFT => earlier
      | _ => m.name :: earlier
    ok && derivedDriftLayered more rest

/-- Modelled from the spec: the `ValidationError` of the Metric Expression
Registry contract (spec section 4.2).  The repository contains no `validate`
implementation — metric validation is performed by the external managed
service — so the error kinds follow the spec: a duplicated name within the
batch, template substitution in a non-AGGREGATE definition, and a reference
that is neither an earlier batch name nor a built-in. -/
inductive ValidationError where
  | nameConflict (name : String)
  | templateInNonAggregate (name : String)
  | unknownReference (name : String)
  deriving DecidableEq, Repr

/-- Whether every custom-metric name referenced by `m` is among `seen`
(names defined earlier in the batch) or among the built-ins. -/
def resolvedRefs (builtins seen : List String) (m : MonitorMetric) : Bool :=
  m.definitionRefs.metricRefs.all fun r => decide (r ∈ seen ∨ r ∈ builtins)

/-- Modelled from the spec: the recursion of `validate(definitions)` (spec
section 4.2), with `seen` the names of the definitions already processed.
The repository contains no `validate` implementation (validation is performed
by the external managed service); this follows the spec's words: enforce name
uniqueness within the batch, reserve `input_column` template substitution for
AGGREGATE definitions, and require every DERIVED/DRIFT reference to resolve
to a name already present earlier in the batch or to a built-in metric. -/
def validateGo (builtins : List String) (seen : List String) :
    List MonitorMetric → Except ValidationError Unit
  | [] => Except.ok ()
  | m :: rest =>
    if m.name ∈ seen then Except.error (ValidationError.nameConflict m.name)
    else if m.type = MonitorMetricType.CUSTOM_METRIC_TYPE_AGGREGATE then
      validateGo builtins (m.name :: seen) rest
    else if m.definitionRefs.usesInputColumnTemplate then
      Except.error (ValidationError.templateInNonAggregate m.name)
    else if resolvedRefs builtins seen m then
      validateGo builtins (m.name :: seen) rest
    else Except.error (ValidationError.unknownReference m.name)

/-- Modelled from the spec: `validate(definitions) -> Result<(), ValidationError>`
of the Metric Expression Registry (spec section 4.2), parameterized by the
list of recognized built-in metric names. -/
def validate (builtins : List String) (batch : List MonitorMetric) :
    Except ValidationError Unit :=
  validateGo builtins [] batch

/-- The acceptance condition in the claim's words, relative to names `seen`
before the batch: every name referenced by a DERIVED or DRIFT definition
appears strictly earlier in the batch (or in `seen`) or is a recognized
built-in.  This is the declarative side compared with the executable
`validate`. -/
def BatchResolvedFrom (builtins seen : List String) (batch : List MonitorMetric) : Prop :=
  ∀ pre m post, batch = pre ++ m :: post →
    m.type ≠ MonitorMetricType.CUSTOM_METRIC_TYPE_AGGREGATE →
    ∀ r ∈ m.definitionRefs.metricRefs,
      r ∈ seen ∨ r ∈ pre.map MonitorMetric.name ∨ r ∈ builtins

/-- The event list the monitor loop produces for `c` loop-body iterations
starting at fetch index `i`: each iteration is one fetch immediately followed
by one `time.sleep(10)`. -/
def pollTrace (i : Nat) : Nat → List MonitorEvent
  | 0 => []
  | c + 1 =>
    MonitorEvent.fetchStatus i :: MonitorEvent.sleepSec monitorSleepSeconds ::
      pollTrace (i + 1) c

/-- The event list a refresh poll loop produces for `c` loop-body iterations
starting at call index `i`: each iteration is one `get_refresh` through client
`handle` for run `rid`, immediately followed by one `time.sleep(30)`. -/
def refreshTrace (handle rid i : Nat) : Nat → List RefreshEvent
  | 0 => []
  | c + 1 =>
    RefreshEvent.getRefresh handle rid i :: RefreshEvent.sleepSec refreshSleepSeconds ::
      refreshTrace handle rid (i + 1) c

/-- A status trace whose first fetch is PENDING and whose second fetch is
ACTIVE: the N = 2 instance of the PENDING to ACTIVE transition. -/
def twoPollStatuses : Nat → MonitorInfoStatus := fun k =>
  if k = 0 then MonitorInfoStatus.MONITOR_STATUS_PENDING
  else MonitorInfoStatus.MONITOR_STATUS_ACTIVE

/-- The claim that the activation poll interval is configurable: two
executions of the monitor poll loop could sleep for different durations.
False on the code: every execution sleeps the hard-coded 10 seconds. -/
def MonitorIntervalConfigurable : Prop :=
  ∃ s1 f1 s2 f2 d1 d2,
    d1 ∈ sleepSecsM (monitorPollLoop s1 f1).1 ∧
      d2 ∈ sleepSecsM (monitorPollLoop s2 f2).1 ∧ d1 ≠ d2

/-- The claim that the refresh poll interval is configurable: two executions
of the refresh poll loop could sleep for different durations.  False on the
code: every execution sleeps the hard-coded 30 seconds. -/
def RefreshIntervalConfigurable : Prop :=
  ∃ h1 r1 s1 c1 f1 h2 r2 s2 c2 f2 d1 d2,
    d1 ∈ sleepSecsR (refreshPollGo h1 r1 s1 c1 0 f1).1 ∧
      d2 ∈ sleepSecsR (refreshPollGo h2 r2 s2 c2 0 f2).1 ∧ d1 ≠ d2

/-! ### Helper lemmas about the monitor poll loop -/

lemma monitorPollGo_stop (statuses : Nat → MonitorInfoStatus) (cur : MonitorInfoStatus)
    (i fuel : Nat) (h : cur ≠ MonitorInfoStatus.MONITOR_STATUS_PENDING) :
    monitorPollGo statuses cur i fuel = ([], some cur) := by
  cases fuel <;> simp [monitorPollGo, h]

lemma monitorPollGo_run : ∀ (m : Nat) (statuses : Nat → MonitorInfoStatus) (i fuel : Nat),
    m + 1 ≤ fuel →
    (∀ k, k < m → statuses (i + k) = MonitorInfoStatus.MONITOR_STATUS_PENDING) →
    statuses (i + m) ≠ MonitorInfoStatus.MONITOR_STATUS_PENDING →
    monitorPollGo statuses MonitorInfoStatus.MONITOR_STATUS_PENDING i fuel =
      (pollTrace i (m + 1), some (statuses (i + m)))
  | 0, statuses, i, fuel, hfuel, _, hstop => by
    obtain ⟨f, rfl⟩ : ∃ f, fuel = f + 1 := ⟨fuel - 1, by omega⟩
    simp only [monitorPollGo, if_pos rfl]
    rw [monitorPollGo_stop statuses (statuses i) (i + 1) f (by simpa using hstop)]
    simp [pollTrace]
  | m + 1, statuses, i, fuel, hfuel, hpend, hstop => by
    obtain ⟨f, rfl⟩ : ∃ f, fuel = f + 1 := ⟨fuel - 1, by omega⟩
    have hi : statuses i = MonitorInfoStatus.MONITOR_STATUS_PENDING := by
      simpa using hpend 0 (by omega)
    simp only [monitorPollGo, if_pos rfl]
    rw [hi, monitorPollGo_run m statuses (i + 1) f (by omega)
      (fun k hk => by
        rw [show i + 1 + k = i + (k + 1) by omega]
        exact hpend (k + 1) (by omega))
      (by rw [show i + 1 + m = i + (m + 1) by omega]; exact hstop)]
    rw [show i + 1 + m = i + (m + 1) by omega]
    simp [pollTrace]

lemma monitorPollLoop_run (N : Nat) (statuses : Nat → MonitorInfoStatus) (fuel : Nat)
    (hN : 1 ≤ N) (hfuel : N ≤ fuel)
    (hpend : ∀ k, k < N - 1 → statuses k = MonitorInfoStatus.MONITOR_STATUS_PENDING)
    (hstop : statuses (N - 1) ≠ MonitorInfoStatus.MONITOR_STATUS_PENDING) :
    monitorPollLoop statuses fuel =
      (MonitorEvent.fetchStatus 0 :: pollTrace 1 (N - 1), some (statuses (N - 1))) := by
  unfold monitorPollLoop
  rcases Nat.exists_eq_add_of_le hN with ⟨M, hM⟩
  rcases M with _ | m
  · have h0 : statuses 0 ≠ MonitorInfoStatus.MONITOR_STATUS_PENDING := by
      simpa [hM] using hstop
    rw [monitorPollGo_stop statuses (statuses 0) 1 fuel h0]
    simp [hM, pollTrace]
  · have h0 : statuses 0 = MonitorInfoStatus.MONITOR_STATUS_PENDING := by
      have := hpend 0 (by omega)
      simpa using this
    rw [h0, monitorPollGo_run m statuses 1 fuel (by omega)
      (fun k hk => by
        rw [show 1 + k = k + 1 by omega]
        exact hpend (k + 1) (by omega))
      (by rw [show 1 + m = N - 1 by omega]; exact hstop)]
    rw [show 1 + m = N - 1 by omega, show m + 1 = N - 1 by omega]

lemma pollTrace_fetchCount : ∀ (c i : Nat), fetchCount (pollTrace i c) = c
  | 0, i => by simp [pollTrace, fetchCount]
  | c + 1, i => by
    simp [pollTrace, fetchCount, List.countP_cons, isFetch] at *
    simpa [fetchCount] using pollTrace_fetchCount c (i + 1)

lemma pollTrace_sleepCount : ∀ (c i : Nat), sleepCount (pollTrace i c) = c
  | 0, i => by simp [pollTrace, sleepCount]
  | c + 1, i => by
    simp [pollTrace, sleepCount, List.countP_cons, isSleepM] at *
    simpa [sleepCount] using pollTrace_sleepCount c (i + 1)

lemma monitorPollGo_succ_pending (statuses : Nat → MonitorInfoStatus) (i fuel : Nat) :
    monitorPollGo statuses MonitorInfoStatus.MONITOR_STATUS_PENDING i (fuel + 1) =
      (MonitorEvent.fetchStatus i :: MonitorEvent.sleepSec monitorSleepSeconds ::
        (monitorPollGo statuses (statuses i) (i + 1) fuel).1,
        (monitorPollGo statuses (statuses i) (i + 1) fuel).2) := rfl

lemma monitorPollGo_pending_eq :
    ∀ (fuel : Nat) (statuses : Nat → MonitorInfoStatus) (i : Nat),
    (∀ k, statuses k = MonitorInfoStatus.MONITOR_STATUS_PENDING) →
    monitorPollGo statuses MonitorInfoStatus.MONITOR_STATUS_PENDING i fuel =
      (pollTrace i fuel, none)
  | 0, statuses, i, hall => by simp [monitorPollGo, pollTrace]
  | fuel + 1, statuses, i, hall => by
    have ih := monitorPollGo_pending_eq fuel statuses (i + 1) hall
    rw [monitorPollGo_succ_pending, hall i, ih]
    simp [pollTrace]

lemma monitorPollGo_sleeps_fixed :
    ∀ (fuel : Nat) (statuses : Nat → MonitorInfoStatus) (cur : MonitorInfoStatus) (i : Nat),
    (sleepSecsM (monitorPollGo statuses cur i fuel).1).all
      (fun d => d == monitorSleepSeconds) = true
  | 0, statuses, cur, i => by
    by_cases h : cur = MonitorInfoStatus.MONITOR_STATUS_PENDING <;>
      simp [monitorPollGo, h, sleepSecsM]
  | fuel + 1, statuses, cur, i => by
    by_cases h : cur = MonitorInfoStatus.MONITOR_STATUS_PENDING
    · have ih := monitorPollGo_sleeps_fixed fuel statuses (statuses i) (i + 1)
      simp only [monitorPollGo, if_pos h]
      simpa [sleepSecsM, List.filterMap_cons] using ih
    · simp [monitorPollGo, h, sleepSecsM]

/-! ### Helper lemmas about the refresh poll loops -/

lemma refreshPollGo_stop (handle rid : Nat) (states : Nat → MonitorRefreshInfoState)
    (cur : MonitorRefreshInfoState) (i fuel : Nat) (h : refreshStatePending cur = false) :
    refreshPollGo handle rid states cur i fuel = ([], some cur) := by
  cases fuel <;> simp [refreshPollGo, h]

lemma refreshPollGo_succ_pending (handle rid : Nat) (states : Nat → MonitorRefreshInfoState)
    (cur : MonitorRefreshInfoState) (i fuel : Nat) (h : refreshStatePending cur = true) :
    refreshPollGo handle rid states cur i (fuel + 1) =
      (RefreshEvent.getRefresh handle rid i :: RefreshEvent.sleepSec refreshSleepSeconds ::
        (refreshPollGo handle rid states (states i) (i + 1) fuel).1,
        (refreshPollGo handle rid states (states i) (i + 1) fuel).2) := by
  simp [refreshPollGo, h]

lemma refreshPollGo_pending_eq :
    ∀ (fuel handle rid : Nat) (states : Nat → MonitorRefreshInfoState)
      (cur : MonitorRefreshInfoState) (i : Nat),
    refreshStatePending cur = true →
    (∀ k, refreshStatePending (states k) = true) →
    refreshPollGo handle rid states cur i fuel = (refreshTrace handle rid i fuel, none)
  | 0, handle, rid, states, cur, i, hcur, hall => by
    simp [refreshPollGo, hcur, refreshTrace]
  | fuel + 1, handle, rid, states, cur, i, hcur, hall => by
    have ih := refreshPollGo_pending_eq fuel handle rid states (states i) (i + 1) (hall i) hall
    rw [refreshPollGo_succ_pending handle rid states cur i fuel hcur, ih]
    simp [refreshTrace]

lemma refreshTrace_count :
    ∀ (c handle rid i : Nat), getRefreshCount (refreshTrace handle rid i c) = c
  | 0, handle, rid, i => by simp [refreshTrace, getRefreshCount, getRefreshIds]
  | c + 1, handle, rid, i => by
    have ih := refreshTrace_count c handle rid (i + 1)
    simp [refreshTrace, getRefreshCount, getRefreshIds, List.filterMap_cons] at ih ⊢
    simpa [getRefreshCount, getRefreshIds] using ih

lemma refreshPollGo_events_shape :
    ∀ (fuel handle rid : Nat) (states : Nat → MonitorRefreshInfoState)
      (cur : MonitorRefreshInfoState) (i : Nat),
    ((getRefreshHandles (refreshPollGo handle rid states cur i fuel).1).all
        (fun h => h == handle) &&
      (getRefreshIds (refreshPollGo handle rid states cur i fuel).1).all
        (fun r => r == rid) &&
      (sleepSecsR (refreshPollGo handle rid states cur i fuel).1).all
        (fun d => d == refreshSleepSeconds)) = true
  | 0, handle, rid, states, cur, i => by
    by_cases h : refreshStatePending cur = true
    · simp [refreshPollGo, h, getRefreshHandles, getRefreshIds, sleepSecsR]
    · simp only [Bool.not_eq_true] at h
      simp [refreshPollGo, h, getRefreshHandles, getRefreshIds, sleepSecsR]
  | fuel + 1, handle, rid, states, cur, i => by
    by_cases h : refreshStatePending cur = true
    · have ih := refreshPollGo_events_shape fuel handle rid states (states i) (i + 1)
      rw [refreshPollGo_succ_pending handle rid states cur i fuel h]
      simp only [getRefreshHandles, getRefreshIds, sleepSecsR, List.filterMap_cons] at ih ⊢
      simpa using ih
    · simp only [Bool.not_eq_true] at h
      simp [refreshPollGo_stop handle rid states cur i (fuel + 1) h,
        getRefreshHandles, getRefreshIds, sleepSecsR]

/-! ### Helper lemmas about the modelled validate -/

lemma resolvedRefs_iff (builtins seen : List String) (m : MonitorMetric) :
    resolvedRefs builtins seen m = true ↔
      ∀ r ∈ m.definitionRefs.metricRefs, r ∈ seen ∨ r ∈ builtins := by
  simp [resolvedRefs]

lemma batchResolvedFrom_cons (builtins seen : List String) (m : MonitorMetric)
    (rest : List MonitorMetric) :
    BatchResolvedFrom builtins seen (m :: rest) ↔
      ((m.type ≠ MonitorMetricType.CUSTOM_METRIC_TYPE_AGGREGATE →
          ∀ r ∈ m.definitionRefs.metricRefs, r ∈ seen ∨ r ∈ builtins) ∧
        BatchResolvedFrom builtins (m.name :: seen) rest) := by
  constructor
  · intro h
    constructor
    · intro ht r hr
      have h0 := h [] m rest rfl ht r hr
      simpa using h0
    · intro pre mm post hd ht r hr
      have h0 := h (m :: pre) mm post (by rw [hd, List.cons_append]) ht r hr
      simp only [List.map_cons, List.mem_cons] at h0 ⊢
      tauto
  · rintro ⟨h1, h2⟩ pre mm post hd ht r hr
    cases pre with
    | nil =>
      simp only [List.nil_append, List.cons.injEq] at hd
      rcases hd with ⟨rfl, rfl⟩
      rcases h1 ht r hr with ha | hb
      · exact Or.inl ha
      · exact Or.inr (Or.inr hb)
    | cons a pre2 =>
      simp only [List.cons_append, List.cons.injEq] at hd
      rcases hd with ⟨rfl, hrest⟩
      have h0 := h2 pre2 mm post hrest ht r hr
      simp only [List.map_cons, List.mem_cons] at h0 ⊢
      tauto

lemma validateGo_ok_iff (builtins : List String) :
    ∀ (batch : List MonitorMetric) (seen : List String),
      (∀ m ∈ batch, m.name ∉ seen) →
      (batch.map MonitorMetric.name).Nodup →
      (∀ m ∈ batch, m.type ≠ MonitorMetricType.CUSTOM_METRIC_TYPE_AGGREGATE →
        m.definitionRefs.usesInputColumnTemplate = false) →
      (validateGo builtins seen batch = Except.ok () ↔ BatchResolvedFrom builtins seen batch)
  | [], seen, hseen, hnodup, htmpl => by
    constructor
    · intro _ pre m post hd
      exact absurd hd (by cases pre <;> simp)
    · intro _
      rfl
  | m :: rest, seen, hseen, hnodup, htmpl => by
    have hmnot : m.name ∉ seen := hseen m (by simp)
    have hnodup2 : (m.name :: rest.map MonitorMetric.name).Nodup := by simpa using hnodup
    have hhead : m.name ∉ rest.map MonitorMetric.name := (List.nodup_cons.mp hnodup2).1
    have hseen2 : ∀ mm ∈ rest, mm.name ∉ m.name :: seen := by
      intro mm hmm
      simp only [List.mem_cons]
      push_neg
      refine ⟨fun he => hhead ?_, hseen mm (by simp [hmm])⟩
      rw [← he]
      exact List.mem_map_of_mem MonitorMetric.name hmm
    have ih := validateGo_ok_iff builtins rest (m.name :: seen) hseen2
      (List.nodup_cons.mp hnodup2).2
      (fun mm hmm => htmpl mm (by simp [hmm]))
    simp only [validateGo, if_neg hmnot]
    by_cases htype : m.type = MonitorMetricType.CUSTOM_METRIC_TYPE_AGGREGATE
    · rw [if_pos htype, batchResolvedFrom_cons]
      rw [and_iff_right (fun ht => absurd htype ht)]
      exact ih
    · rw [if_neg htype]
      have htm : m.definitionRefs.usesInputColumnTemplate = false := htmpl m (by simp) htype
      rw [htm]
      simp only [Bool.false_eq_true, if_false]
      by_cases hres : resolvedRefs builtins seen m = true
      · rw [if_pos hres, batchResolvedFrom_cons]
        rw [and_iff_right (fun _ => (resolvedRefs_iff builtins seen m).mp hres)]
        exact ih
      · rw [if_neg hres]
        constructor
        · intro h
          exact absurd h (by simp)
        · intro h
          exact absurd ((resolvedRefs_iff builtins seen m).mpr
            (((batchResolvedFrom_cons builtins seen m rest).mp h).1 htype)) hres

lemma fetchCount_cons_fetch (i : Nat) (tr : List MonitorEvent) :
    fetchCount (MonitorEvent.fetchStatus i :: tr) = fetchCount tr + 1 := by
  simp [fetchCount, List.countP_cons, isFetch]

lemma sleepCount_cons_fetch (i : Nat) (tr : List MonitorEvent) :
    sleepCount (MonitorEvent.fetchStatus i :: tr) = sleepCount tr := by
  simp [sleepCount, List.countP_cons, isSleepM]

lemma monitorPollLoop_sleeps_fixed (statuses : Nat → MonitorInfoStatus) (fuel : Nat) :
    (sleepSecsM (monitorPollLoop statuses fuel).1).all
      (fun d => d == monitorSleepSeconds) = true := by
  have h := monitorPollGo_sleeps_fixed fuel statuses (statuses 0) 1
  simpa [monitorPollLoop, sleepSecsM, List.filterMap_cons] using h

lemma refreshPollGo_sleeps_fixed (fuel handle rid : Nat)
    (states : Nat → MonitorRefreshInfoState) (cur : MonitorRefreshInfoState) (i : Nat) :
    (sleepSecsR (refreshPollGo handle rid states cur i fuel).1).all
      (fun d => d == refreshSleepSeconds) = true := by
  have h := refreshPollGo_events_shape fuel handle rid states cur i
  simp only [Bool.and_eq_true] at h
  exact h.2

lemma refreshPollGo_handles_fixed (fuel handle rid : Nat)
    (states : Nat → MonitorRefreshInfoState) (cur : MonitorRefreshInfoState) (i : Nat) :
    (getRefreshHandles (refreshPollGo handle rid states cur i fuel).1).all
      (fun h => h == handle) = true := by
  have h := refreshPollGo_events_shape fuel handle rid states cur i
  simp only [Bool.and_eq_true] at h
  exact h.1.1

lemma refreshPollGo_ids_fixed (fuel handle rid : Nat)
    (states : Nat → MonitorRefreshInfoState) (cur : MonitorRefreshInfoState) (i : Nat) :
    (getRefreshIds (refreshPollGo handle rid states cur i fuel).1).all
      (fun r => r == rid) = true := by
  have h := refreshPollGo_events_shape fuel handle rid states cur i
  simp only [Bool.and_eq_true] at h
  exact h.1.2

/-! ### Claim theorems -/

/-- C1 counterexample: the code's poll loops take no timeout at all.  With a
monitor status that never leaves PENDING, and a refresh run that never leaves
RUNNING, the loops are still polling after every number of iterations (`none`
for all fuel): no execution raises a TimeoutError after a caller-specified
timeout, and the loops do not terminate within any bound — refuting the
claim as stated. -/
theorem monitor_and_refresh_loops_never_raise_timeout :
    (∀ fuel, (monitorPollLoop
      (fun _ => MonitorInfoStatus.MONITOR_STATUS_PENDING) fuel).2 = none) ∧
      (∀ fuel, (refreshPollGo 0 0 (fun _ => MonitorRefreshInfoState.RUNNING)
        MonitorRefreshInfoState.RUNNING 0 fuel).2 = none) := by
  constructor
  · intro fuel
    have h := monitorPollGo_pending_eq fuel
      (fun _ => MonitorInfoStatus.MONITOR_STATUS_PENDING) 1 (fun _ => rfl)
    simp [monitorPollLoop, h]
  · intro fuel
    have h := refreshPollGo_pending_eq fuel 0 0
      (fun _ => MonitorRefreshInfoState.RUNNING) MonitorRefreshInfoState.RUNNING 0
      rfl (fun _ => rfl)
    simp [h]

/-- C1 amended: the notebook's poll loops have no timeout parameter and
raise no TimeoutError.  Whenever the polled status never leaves the pending
set (PENDING for the monitor; PENDING or RUNNING for a refresh run), each
loop keeps polling without any outcome: after `fuel` loop iterations the
monitor loop has made `fuel + 1` status fetches and the refresh loop `fuel`
`get_refresh` calls, and neither has terminated. -/
theorem poll_loops_have_no_timeout (statuses : Nat → MonitorInfoStatus)
    (states : Nat → MonitorRefreshInfoState) (init : MonitorRefreshInfoState)
    (handle rid fuel : Nat)
    (hm : ∀ k, statuses k = MonitorInfoStatus.MONITOR_STATUS_PENDING)
    (hr : ∀ k, refreshStatePending (states k) = true)
    (hinit : refreshStatePending init = true) :
    (monitorPollLoop statuses fuel).2 = none ∧
      fetchCount (monitorPollLoop statuses fuel).1 = fuel + 1 ∧
      (refreshPollGo handle rid states init 0 fuel).2 = none ∧
      getRefreshCount (refreshPollGo handle rid states init 0 fuel).1 = fuel := by
  have h1 := monitorPollGo_pending_eq fuel statuses 1 hm
  have h2 := refreshPollGo_pending_eq fuel handle rid states init 0 hinit hr
  have hl : monitorPollLoop statuses fuel =
      (MonitorEvent.fetchStatus 0 :: pollTrace 1 fuel, none) := by
    simp [monitorPollLoop, hm 0, h1]
  refine ⟨by rw [hl], ?_, by rw [h2], by rw [h2]; exact refreshTrace_count fuel handle rid 0⟩
  simp [hl, fetchCount_cons_fetch, pollTrace_fetchCount]

/-- C1 witness: the no-timeout behaviour at the concrete always-PENDING and
always-RUNNING traces with three iterations of fuel. -/
theorem poll_loops_have_no_timeout_witness :
    (monitorPollLoop (fun _ => MonitorInfoStatus.MONITOR_STATUS_PENDING) 3).2 = none ∧
      fetchCount (monitorPollLoop
        (fun _ => MonitorInfoStatus.MONITOR_STATUS_PENDING) 3).1 = 4 ∧
      (refreshPollGo 0 0 (fun _ => MonitorRefreshInfoState.RUNNING)
        MonitorRefreshInfoState.RUNNING 0 3).2 = none ∧
      getRefreshCount ((refreshPollGo 0 0 (fun _ => MonitorRefreshInfoState.RUNNING)
        MonitorRefreshInfoState.RUNNING 0 3)).1 = 3 :=
  poll_loops_have_no_timeout _ _ _ 0 0 3 (fun _ => rfl) (fun _ => rfl) rfl

/-- C2 counterexample: with the first fetch PENDING and the second ACTIVE
(the N = 2 transition), the loop performs 2 fetches and 1 sleep, but the
sleep comes AFTER the last fetch — the trace is fetch, fetch, sleep — and no
sleep occurs between the two consecutive fetches, refuting the claimed
placement of the sleeps. -/
theorem awaitActive_sleep_follows_last_fetch :
    (monitorPollLoop twoPollStatuses 5).1 =
      [MonitorEvent.fetchStatus 0, MonitorEvent.fetchStatus 1,
        MonitorEvent.sleepSec monitorSleepSeconds] ∧
      (monitorPollLoop twoPollStatuses 5).1.getLast? =
        some (MonitorEvent.sleepSec monitorSleepSeconds) ∧
      (monitorPollLoop twoPollStatuses 5).2 =
        some MonitorInfoStatus.MONITOR_STATUS_ACTIVE ∧
      fetchCount (monitorPollLoop twoPollStatuses 5).1 = 2 ∧
      sleepCount (monitorPollLoop twoPollStatuses 5).1 = 1 := by
  decide

/-- C2 amended: when the status is PENDING on the first N-1 fetches and
ACTIVE on the N-th, the loop exits with ACTIVE (the following assertion
passes) after exactly N fetches and exactly N-1 sleeps of the fixed
10-second interval; but each sleep immediately follows a re-fetch of the
loop body, so the first two fetches are back to back and (for N at least 2)
a sleep follows the final fetch, as the exact trace shows. -/
theorem awaitActive_fetch_and_sleep_counts (N : Nat) (statuses : Nat → MonitorInfoStatus)
    (fuel : Nat) (hN : 1 ≤ N) (hfuel : N ≤ fuel)
    (hpend : ∀ k, k < N - 1 → statuses k = MonitorInfoStatus.MONITOR_STATUS_PENDING)
    (hact : statuses (N - 1) = MonitorInfoStatus.MONITOR_STATUS_ACTIVE) :
    (monitorPollLoop statuses fuel).2 = some MonitorInfoStatus.MONITOR_STATUS_ACTIVE ∧
      assertMonitorActive MonitorInfoStatus.MONITOR_STATUS_ACTIVE =
        Except.ok MonitorInfoStatus.MONITOR_STATUS_ACTIVE ∧
      (monitorPollLoop statuses fuel).1 =
        MonitorEvent.fetchStatus 0 :: pollTrace 1 (N - 1) ∧
      fetchCount (monitorPollLoop statuses fuel).1 = N ∧
      sleepCount (monitorPollLoop statuses fuel).1 = N - 1 := by
  have hrun := monitorPollLoop_run N statuses fuel hN hfuel hpend (by simp [hact])
  rw [hrun]
  refine ⟨by rw [hact], rfl, rfl, ?_, ?_⟩
  · simp [fetchCount_cons_fetch, pollTrace_fetchCount]
    omega
  · simp [sleepCount_cons_fetch, pollTrace_sleepCount]

/-- C2 witness: the N = 3 instance, PENDING on fetches 0 and 1 and ACTIVE on
fetch 2: three fetches, two sleeps. -/
theorem awaitActive_fetch_and_sleep_counts_witness :
    (monitorPollLoop (fun k => if k < 2 then MonitorInfoStatus.MONITOR_STATUS_PENDING
        else MonitorInfoStatus.MONITOR_STATUS_ACTIVE) 3).2 =
      some MonitorInfoStatus.MONITOR_STATUS_ACTIVE ∧
      assertMonitorActive MonitorInfoStatus.MONITOR_STATUS_ACTIVE =
        Except.ok MonitorInfoStatus.MONITOR_STATUS_ACTIVE ∧
      (monitorPollLoop (fun k => if k < 2 then MonitorInfoStatus.MONITOR_STATUS_PENDING
        else MonitorInfoStatus.MONITOR_STATUS_ACTIVE) 3).1 =
        MonitorEvent.fetchStatus 0 :: pollTrace 1 2 ∧
      fetchCount (monitorPollLoop
        (fun k => if k < 2 then MonitorInfoStatus.MONITOR_STATUS_PENDING
          else MonitorInfoStatus.MONITOR_STATUS_ACTIVE) 3).1 = 3 ∧
      sleepCount (monitorPollLoop
        (fun k => if k < 2 then MonitorInfoStatus.MONITOR_STATUS_PENDING
          else MonitorInfoStatus.MONITOR_STATUS_ACTIVE) 3).1 = 2 :=
  awaitActive_fetch_and_sleep_counts 3 _ 3 (by decide) (by decide)
    (fun k hk => by
      have hk2 : k < 2 := by omega
      simp [hk2])
    (by norm_num)

/-- C3: when the status is PENDING on the first N-1 fetches and FAILED on the
N-th, the loop exits immediately with FAILED after exactly N fetches — no
further status fetch happens after the FAILED observation — and the
assertion `info.status == ACTIVE` raises the failure (the spec's
ResourceFailedError, surfaced as the assertion error
"Error creating monitor"). -/
theorem awaitActive_failed_raises_immediately (N : Nat)
    (statuses : Nat → MonitorInfoStatus) (fuel : Nat) (hN : 1 ≤ N) (hfuel : N ≤ fuel)
    (hpend : ∀ k, k < N - 1 → statuses k = MonitorInfoStatus.MONITOR_STATUS_PENDING)
    (hfail : statuses (N - 1) = MonitorInfoStatus.MONITOR_STATUS_FAILED) :
    (monitorPollLoop statuses fuel).2 = some MonitorInfoStatus.MONITOR_STATUS_FAILED ∧
      fetchCount (monitorPollLoop statuses fuel).1 = N ∧
      assertMonitorActive MonitorInfoStatus.MONITOR_STATUS_FAILED =
        Except.error "Error creating monitor" := by
  have hrun := monitorPollLoop_run N statuses fuel hN hfuel hpend (by simp [hfail])
  rw [hrun]
  refine ⟨by rw [hfail], ?_, rfl⟩
  simp [fetchCount_cons_fetch, pollTrace_fetchCount]
  omega

/-- C3 witness: the N = 2 instance, PENDING on fetch 0 and FAILED on
fetch 1: two fetches, then the assertion error. -/
theorem awaitActive_failed_raises_immediately_witness :
    (monitorPollLoop (fun k => if k = 0 then MonitorInfoStatus.MONITOR_STATUS_PENDING
        else MonitorInfoStatus.MONITOR_STATUS_FAILED) 2).2 =
      some MonitorInfoStatus.MONITOR_STATUS_FAILED ∧
      fetchCount (monitorPollLoop
        (fun k => if k = 0 then MonitorInfoStatus.MONITOR_STATUS_PENDING
          else MonitorInfoStatus.MONITOR_STATUS_FAILED) 2).1 = 2 ∧
      assertMonitorActive MonitorInfoStatus.MONITOR_STATUS_FAILED =
        Except.error "Error creating monitor" :=
  awaitActive_failed_raises_immediately 2 _ 2 (by decide) (by decide)
    (fun k hk => by
      have hk0 : k = 0 := by omega
      simp [hk0])
    (by norm_num)

/-- C4 counterexample: on a ConfigurationError (for example a privilege
failure) the create cell does NOT halt: the try/except catches the
exception, prints it, and the notebook continues with the next cell as if
the call had succeeded — refuting the claim that execution does not continue
past the failed call. -/
theorem configuration_error_not_surfaced :
    haltsOnConfigError "PERMISSION_DENIED: not enough privileges" = false ∧
      (createMonitorCell
        (Except.error "PERMISSION_DENIED: not enough privileges")).2 =
        CellOutcome.printedError "PERMISSION_DENIED: not enough privileges" :=
  ⟨rfl, rfl⟩

/-- C4 amended: a ConfigurationError from `create` or `update` is not
retried — each cell makes exactly one service call — but it is caught by the
surrounding try/except and printed rather than surfaced as a failure:
execution continues past the failed call.  A successful call yields the
monitor value. -/
theorem configuration_error_printed_and_execution_continues (e : String)
    (m : MonitorInfo) :
    createMonitorCell (Except.error e) =
      ([ServiceCall.createCall], CellOutcome.printedError e) ∧
      updateMonitorCell (Except.error e) =
        ([ServiceCall.updateCall], CellOutcome.printedError e) ∧
      continuesExecution (createMonitorCell (Except.error e)).2 = true ∧
      continuesExecution (updateMonitorCell (Except.error e)).2 = true ∧
      createMonitorCell (Except.ok m) = ([ServiceCall.createCall], CellOutcome.ok m) :=
  ⟨rfl, rfl, rfl, rfl, rfl⟩

/-- C5: for duplicate-free batches whose non-AGGREGATE definitions use no
input-column template, the modelled `validate` accepts exactly when every
name referenced by a DERIVED or DRIFT definition appears strictly earlier in
the batch or is a recognized built-in; in particular the source's AGGREGATE
`variance` followed by DERIVED `std` (referencing `variance`) validates, and
the reverse order is rejected. -/
theorem validate_accepts_iff_refs_earlier (builtins : List String)
    (batch : List MonitorMetric)
    (hnodup : (batch.map MonitorMetric.name).Nodup)
    (htmpl : ∀ m ∈ batch, m.type ≠ MonitorMetricType.CUSTOM_METRIC_TYPE_AGGREGATE →
      m.definitionRefs.usesInputColumnTemplate = false) :
    (validate builtins batch = Except.ok () ↔ BatchResolvedFrom builtins [] batch) ∧
      validate [] [variance_metric_agg, std_metric_derived] = Except.ok () ∧
      validate [] [std_metric_derived, variance_metric_agg] =
        Except.error (ValidationError.unknownReference "std") :=
  ⟨validateGo_ok_iff builtins batch []
      (fun m _ => List.not_mem_nil m.name) hnodup htmpl,
    rfl, rfl⟩

/-- C5 witness: the iff and the two concrete batches from the source, at the
concrete batch [variance, std]. -/
theorem validate_accepts_iff_refs_earlier_witness :
    ((validate [] [variance_metric_agg, std_metric_derived] = Except.ok () ↔
      BatchResolvedFrom [] [] [variance_metric_agg, std_metric_derived]) ∧
      validate [] [variance_metric_agg, std_metric_derived] = Except.ok () ∧
      validate [] [std_metric_derived, variance_metric_agg] =
        Except.error (ValidationError.unknownReference "std")) :=
  validate_accepts_iff_refs_earlier [] [variance_metric_agg, std_metric_derived]
    (by decide) (by decide)

/-- C6: in the batch the update cell submits, every DERIVED and DRIFT
definition references only names of AGGREGATE or DERIVED metrics defined
strictly earlier in the batch, references no raw table column and uses no
input-column template; only AGGREGATE definitions touch raw columns
directly. -/
theorem custom_metrics_layering_invariant :
    derivedDriftLayered [] custom_metrics = true := by decide

/-- C7: in the post-update refresh section, the `run_refresh` trigger goes
through the pre-existing client handle (handle 0), a fresh `WorkspaceClient`
(handle 1) is constructed immediately afterwards, and every subsequent
`get_refresh` poll of that run goes through the fresh handle 1, never
through the handle that triggered the refresh. -/
theorem refresh_polls_use_fresh_client (init : MonitorRefreshInfoState) (rid : Nat)
    (states : Nat → MonitorRefreshInfoState) (fuel : Nat) :
    (runRefreshSection init rid states fuel).1.head? =
      some (RefreshEvent.runRefreshCall 0) ∧
      (runRefreshSection init rid states fuel).1.tail.head? =
        some (RefreshEvent.newClient 1) ∧
      (getRefreshHandles (runRefreshSection init rid states fuel).1).all
        (fun h => h == 1) = true ∧
      (0 : Nat) ≠ 1 := by
  refine ⟨rfl, rfl, ?_, by decide⟩
  have h := refreshPollGo_handles_fixed fuel 1 rid states init 0
  simpa [runRefreshSection, getRefreshHandles, List.filterMap_cons] using h

/-- C8 counterexample: neither poll interval is configurable.  Every
execution of the activation loop sleeps exactly the hard-coded 10 seconds
and every execution of the refresh loop sleeps exactly the hard-coded 30
seconds, so no two executions can exhibit different intervals — refuting
the claim that each interval is a configurable parameter of the await
operation. -/
theorem poll_intervals_not_configurable :
    ¬ MonitorIntervalConfigurable ∧ ¬ RefreshIntervalConfigurable := by
  constructor
  · rintro ⟨s1, f1, s2, f2, d1, d2, h1, h2, hne⟩
    have e1 := monitorPollLoop_sleeps_fixed s1 f1
    have e2 := monitorPollLoop_sleeps_fixed s2 f2
    simp only [List.all_eq_true, beq_iff_eq] at e1 e2
    exact hne ((e1 d1 h1).trans (e2 d2 h2).symm)
  · rintro ⟨h1v, r1, s1, c1, f1, h2v, r2, s2, c2, f2, d1, d2, hm1, hm2, hne⟩
    have e1 := refreshPollGo_sleeps_fixed f1 h1v r1 s1 c1 0
    have e2 := refreshPollGo_sleeps_fixed f2 h2v r2 s2 c2 0
    simp only [List.all_eq_true, beq_iff_eq] at e1 e2
    exact hne ((e1 d1 hm1).trans (e2 d2 hm2).symm)

/-- C8 amended: the activation loop and the refresh loops do use different
intervals, and the refresh interval (30 s) is strictly larger than the
activation interval (10 s); but both are hard-coded constants of the loop
bodies — every sleep of every execution uses exactly the constant — not
configurable parameters of the await operations. -/
theorem poll_intervals_fixed_ten_and_thirty (statuses : Nat → MonitorInfoStatus)
    (states : Nat → MonitorRefreshInfoState) (cur : MonitorRefreshInfoState)
    (handle rid f1 f2 : Nat) :
    (sleepSecsM (monitorPollLoop statuses f1).1).all
      (fun d => d == monitorSleepSeconds) = true ∧
      (sleepSecsR (refreshPollGo handle rid states cur 0 f2).1).all
        (fun d => d == refreshSleepSeconds) = true ∧
      monitorSleepSeconds = 10 ∧ refreshSleepSeconds = 30 ∧
      monitorSleepSeconds < refreshSleepSeconds :=
  ⟨monitorPollLoop_sleeps_fixed statuses f1,
    refreshPollGo_sleeps_fixed f2 handle rid states cur 0, rfl, rfl, by decide⟩

/-- C9: after the monitor is ACTIVE, an empty refresh-run list fails the
`assert(len(refreshes) > 0)` before any `get_refresh` call (the trace is
empty), and with a non-empty list every `get_refresh` poll asks for the
refresh id of the FIRST element `refreshes[0]`; runs other than the first
are never fetched. -/
theorem awaits_only_first_refresh (states : Nat → MonitorRefreshInfoState)
    (fuel : Nat) (r0 : MonitorRefreshInfo) (rest : List MonitorRefreshInfo) :
    awaitFirstRefresh [] states fuel =
      ([], Except.error "assert len(refreshes) > 0 failed") ∧
      getRefreshCount (awaitFirstRefresh [] states fuel).1 = 0 ∧
      (getRefreshIds (awaitFirstRefresh (r0 :: rest) states fuel).1).all
        (fun r => r == r0.refreshId) = true := by
  refine ⟨rfl, rfl, ?_⟩
  have h := refreshPollGo_ids_fixed fuel 0 r0.refreshId states r0.state 0
  simpa [awaitFirstRefresh] using h

/-- C10: both loops exit on any status outside their pending set (any status
other than PENDING for the monitor; any state outside PENDING/RUNNING for a
refresh), and each loop reports every non-successful final status with the
same single error message — "Error creating monitor" for any monitor status
other than ACTIVE, "Monitor refresh failed" for any refresh state other than
SUCCESS — so FAILED is indistinguishable from any other unexpected status. -/
theorem loops_exit_nonpending_with_single_error (statuses : Nat → MonitorInfoStatus)
    (states : Nat → MonitorRefreshInfoState) (i j fuelM fuelR handle rid : Nat) :
    monitorPollGo statuses MonitorInfoStatus.MONITOR_STATUS_ACTIVE i fuelM =
      ([], some MonitorInfoStatus.MONITOR_STATUS_ACTIVE) ∧
      monitorPollGo statuses MonitorInfoStatus.MONITOR_STATUS_FAILED i fuelM =
        ([], some MonitorInfoStatus.MONITOR_STATUS_FAILED) ∧
      monitorPollGo statuses MonitorInfoStatus.MONITOR_STATUS_ERROR i fuelM =
        ([], some MonitorInfoStatus.MONITOR_STATUS_ERROR) ∧
      monitorPollGo statuses MonitorInfoStatus.MONITOR_STATUS_DELETE_PENDING i fuelM =
        ([], some MonitorInfoStatus.MONITOR_STATUS_DELETE_PENDING) ∧
      refreshPollGo handle rid states MonitorRefreshInfoState.SUCCESS j fuelR =
        ([], some MonitorRefreshInfoState.SUCCESS) ∧
      refreshPollGo handle rid states MonitorRefreshInfoState.FAILED j fuelR =
        ([], some MonitorRefreshInfoState.FAILED) ∧
      refreshPollGo handle rid states MonitorRefreshInfoState.CANCELED j fuelR =
        ([], some MonitorRefreshInfoState.CANCELED) ∧
      refreshPollGo handle rid states MonitorRefreshInfoState.UNKNOWN j fuelR =
        ([], some MonitorRefreshInfoState.UNKNOWN) ∧
      assertMonitorActive MonitorInfoStatus.MONITOR_STATUS_FAILED =
        Except.error "Error creating monitor" ∧
      assertMonitorActive MonitorInfoStatus.MONITOR_STATUS_ERROR =
        Except.error "Error creating monitor" ∧
      assertMonitorActive MonitorInfoStatus.MONITOR_STATUS_DELETE_PENDING =
        Except.error "Error creating monitor" ∧
      assertMonitorActive MonitorInfoStatus.MONITOR_STATUS_PENDING =
        Except.error "Error creating monitor" ∧
      assertMonitorActive MonitorInfoStatus.MONITOR_STATUS_FAILED =
        assertMonitorActive MonitorInfoStatus.MONITOR_STATUS_ERROR ∧
      assertRefreshSuccess MonitorRefreshInfoState.FAILED =
        Except.error "Monitor refresh failed" ∧
      assertRefreshSuccess MonitorRefreshInfoState.CANCELED =
        Except.error "Monitor refresh failed" ∧
      assertRefreshSuccess MonitorRefreshInfoState.UNKNOWN =
        Except.error "Monitor refresh failed" ∧
      assertRefreshSuccess MonitorRefreshInfoState.FAILED =
        assertRefreshSuccess MonitorRefreshInfoState.CANCELED :=
  ⟨monitorPollGo_stop statuses _ i fuelM (by decide),
    monitorPollGo_stop statuses _ i fuelM (by decide),
    monitorPollGo_stop statuses _ i fuelM (by decide),
    monitorPollGo_stop statuses _ i fuelM (by decide),
    refreshPollGo_stop handle rid states _ j fuelR rfl,
    refreshPollGo_stop handle rid states _ j fuelR rfl,
    refreshPollGo_stop handle rid states _ j fuelR rfl,
    refreshPollGo_stop handle rid states _ j fuelR rfl,
    rfl, rfl, rfl, rfl, rfl, rfl, rfl, rfl, rfl⟩

end LakehouseMonitor
